import Mathlib

/-!
Shallow embedding of `src/module/MonteCarlo.py` (classes `Die`, `Game`,
`Analyzer`) from the Monte-Carlo-Module repository, together with theorems
settling the frozen claims about it.

Modelling conventions:
* Python exceptions are the `PyError` inductive, carrying the message from the
  source where one exists.  The error taxonomy of the spec maps onto them as the
  code realises it: `InvalidInputError` is `TypeError`/`ValueError` on
  malformed arguments, `DuplicateLabelError` is `ValueError "Faces must be
  distinct."`, `UnknownLabelError` is `IndexError`, `InvalidWeightError` is
  `TypeError "Weight must be a numeric value."`, `NoResultsError` is the
  `ValueError` raised when `results is None`, and `InvalidArgumentError` is
  the `ValueError` on an unrecognised `form`.
* Numeric Python values (die weights) are modelled as rationals; a candidate
  weight argument, which in Python may be any object, is a `PyVal`.
* Outcome labels are a parameter type `α` with decidable equality.
* The pandas `DataFrame` held by a die (`self.df`, faces index with a
  `weights` column) is the `dfWeights` list parallel to `faces`; the wide
  results `DataFrame` of a game is a `ResultFrame` (row index, column labels,
  rows).
* Randomness (`random.choices`) is abstracted by an index stream
  `σ : ℕ → ℕ`: the i-th draw returns `population[σ i % n]`.  Every claim
  below is independent of which index the stream picks, so only the control
  flow of `random.choices` (its error checks and the length of its output,
  taken from the CPython implementation) matters.
-/

namespace MonteCarlo

/-- A Python exception, with the message raised by the source where the
source supplies one. -/
inductive PyError where
  | typeError (msg : String)
  | valueError (msg : String)
  | indexError (msg : String)
  | attributeError (msg : String)
deriving DecidableEq, Repr

/-- A Python value passed as a candidate weight: `isinstance(w, (int, float))`
distinguishes the numeric constructors from the rest. -/
inductive PyVal where
  | int (n : ℤ)
  | float (q : ℚ)
  | str (s : String)
deriving DecidableEq, Repr

/-- The check `isinstance(w, (int, float))` from `Die.change_weight`. -/
def PyVal.isNumeric : PyVal → Bool
  | .int _ => true
  | .float _ => true
  | .str _ => false

/-- The numeric value of a numeric `PyVal` (unused on non-numeric ones). -/
def PyVal.toRat : PyVal → ℚ
  | .int n => (n : ℚ)
  | .float q => q
  | .str _ => 0

/-- State of a `Die` object: `faces` is `self.faces` (the numpy array),
`weights` is `self.weights` (the numpy array created in `__init__`), and
`dfWeights` is the `weights` column of `self.df`, parallel to `faces`
(the frame is indexed by `faces`). -/
structure Die (α : Type) where
  faces : List α
  weights : List ℚ
  dfWeights : List ℚ
deriving DecidableEq, Repr

/-- Argument to `Die.__init__`: either a numpy `ndarray` of faces or any
other object (which fails the `isinstance(faces, np.ndarray)` check). -/
inductive NpInput (α : Type) where
  | ndarray (faces : List α)
  | notArray
deriving DecidableEq, Repr

/-- Embedding of `Die.__init__`.  The duplicate check in the source is
`any(faces.count(face) > 1 for face in faces)`; `numpy.ndarray` has no
`count` method, so the first evaluation of the generator raises
`AttributeError` — hence any nonempty array fails here, and only the empty
array reaches the assignments (for the empty array the generator is empty
and `any` returns `False` without evaluating `faces.count`). -/
def Die.init {α : Type} : NpInput α → Except PyError (Die α)
  | .notArray => .error (.typeError "Faces must be a numpy array.")
  | .ndarray faces =>
    match faces with
    | [] => .ok { faces := [], weights := [], dfWeights := [] }
    | _ :: _ => .error (.attributeError "numpy.ndarray object has no attribute count")

/-- Embedding of `Die.change_weight`: `IndexError` when the face is not on the die,
`TypeError` when the new weight is not an `int` or `float`; otherwise
`self.df.loc[face, "weights"] = new_weight` overwrites the frame row(s)
whose index equals `face`, leaving `self.faces` and `self.weights`
untouched. -/
def Die.change_weight {α : Type} [DecidableEq α] (d : Die α) (face : α)
    (new_weight : PyVal) : Except PyError (Die α) :=
  if face ∉ d.faces then
    .error (.indexError "Face not found in die.")
  else if ¬ new_weight.isNumeric then
    .error (.typeError "Weight must be a numeric value.")
  else
    .ok { d with dfWeights :=
      (List.zipWith (fun f w => if f = face then new_weight.toRat else w)
        d.faces d.dfWeights) }

/-- CPython `random.choices(population, weights=w, k=k)` with the random
stream abstracted to an index chooser `σ`: after the error checks of the
real implementation (`ValueError` when the weight list length mismatches
the population, `IndexError` from `cum_weights[-1]` on an empty population,
`ValueError` when the total weight is not positive) it returns `k` draws,
the i-th being `population[σ i % n]`; for `k ≤ 0` the comprehension is
empty. -/
def choices {α : Type} (population : List α) (w : List ℚ) (k : ℤ)
    (σ : ℕ → ℕ) : Except PyError (List α) :=
  if w.length ≠ population.length then
    .error (.valueError "The number of weights does not match the population")
  else
    match population with
    | [] => .error (.indexError "list index out of range")
    | p :: ps =>
      if w.sum ≤ 0 then
        .error (.valueError "Total of weights must be greater than zero")
      else
        .ok ((List.range k.toNat).map fun i => (p :: ps).getD (σ i % (p :: ps).length) p)

/-- Embedding of `Die.roll`: `random.choices(self.faces, weights=self.df["weights"], k=times)` — the population is `self.faces` and the weights are the frame
column, not the `self.weights` array. -/
def Die.roll {α : Type} (d : Die α) (times : ℤ) (σ : ℕ → ℕ) :
    Except PyError (List α) :=
  choices d.faces d.dfWeights times σ

/-- A wide-form pandas results frame: the row index (the trial numbers, the
index is named `Roll` in the source), the column labels (`Die 0`, `Die 1`,
…), and the rows themselves. -/
structure ResultFrame (α : Type) where
  index : List ℕ
  columns : List String
  rows : List (List α)
deriving DecidableEq, Repr

/-- State of a `Game` object: `self.dice` and `self.results` (which is
`None` until `play` has run). -/
structure Game (α : Type) where
  dice : List (Die α)
  results : Option (ResultFrame α)
deriving DecidableEq, Repr

/-- One iteration of the inner loop of `play`: `die.roll(1)[0]` for each die in
order.  `pick i` supplies the random index stream for the draw of die `i`
(only its value feeds the single draw).  Indexing `[0]` into the returned
list would raise `IndexError` were it empty — unreachable for `k = 1`, but
embedded faithfully. -/
def rollRow {α : Type} : List (Die α) → (ℕ → ℕ) → Except PyError (List α)
  | [], _ => .ok []
  | d :: ds, pick => do
    let outs ← d.roll 1 (fun _ => pick 0)
    match outs with
    | [] => .error (.indexError "list index out of range")
    | o :: _ => do
      let rest ← rollRow ds (fun i => pick (i + 1))
      pure (o :: rest)

/-- The outer loop of `play` over `range(rolls)`, collecting one row per trial;
`σ r i` is the random stream feeding trial `r`, die `i`. -/
def playRows {α : Type} (dice : List (Die α)) : ℕ → (ℕ → ℕ → ℕ) →
    Except PyError (List (List α))
  | 0, _ => .ok []
  | n + 1, σ => do
    let row ← rollRow dice (σ 0)
    let rest ← playRows dice n (fun r => σ (r + 1))
    pure (row :: rest)

/-- Embedding of `Game.play`: rolls every die once per trial, then stores the wide frame
with columns `Die 0`, …, `Die d-1` and row index `1` through the number of
rows, overwriting `self.results`.  For `rolls < 1`, `range(rolls)` is empty
and an empty frame (no rows) is stored without error. -/
def Game.play {α : Type} (g : Game α) (rolls : ℤ) (σ : ℕ → ℕ → ℕ) :
    Except PyError (Game α) := do
  let results ← playRows g.dice rolls.toNat σ
  pure { g with results := some (ResultFrame.mk
    ((List.range results.length).map (· + 1))
    ((List.range g.dice.length).map (fun i => "Die " ++ toString i))
    results) }

/-- Embedding of `Game.show_results`.  The `results is None` check comes first and
raises `ValueError` for every `form`.  The `narrow` branch reads
`self.wide_results`, an attribute no method of the class ever assigns
(`play` assigns `self.results`), so Python raises `AttributeError` there;
the melt/re-index that follows it is unreachable. -/
def Game.show_results {α : Type} (g : Game α) (form : String) :
    Except PyError (ResultFrame α) :=
  match g.results with
  | none => .error (.valueError "No results available. Please play the game first.")
  | some res =>
    if form = "wide" then .ok res
    else if form = "narrow" then
      .error (.attributeError "Game object has no attribute wide_results")
    else .error (.valueError "Invalid form. Choose wide or narrow.")

/-- State of an `Analyzer` object: the reference to the game it analyzes. -/
structure Analyzer (α : Type) where
  game : Game α
deriving DecidableEq, Repr

/-- Embedding of `Analyzer.__init__` on a `Game` argument (a non-`Game` argument fails
the earlier `isinstance` check with `ValueError` and never reaches this
point): raises `ValueError` when the game has no results yet, otherwise
stores the game. -/
def Analyzer.init {α : Type} (game : Game α) : Except PyError (Analyzer α) :=
  match game.results with
  | none => .error (.valueError "No game results available. Please play the game first.")
  | some _ => .ok { game := game }

/-- Embedding of `row.nunique()` for one frame row: the number of distinct values. -/
def nuniqueRow {α : Type} [DecidableEq α] (row : List α) : ℕ :=
  row.dedup.length

/-- Embedding of `pandas.Series.value_counts` up to row order: each distinct value of
the series paired with its number of occurrences (the source never depends
on the descending-count ordering pandas applies, so it is not modelled). -/
def value_counts {β : Type} [DecidableEq β] (l : List β) : List (β × ℕ) :=
  l.dedup.map (fun k => (k, l.count k))

/-- Embedding of `Analyzer.jackpot`: `self.game.results.nunique(axis=1) == 1` summed —
the number of rows whose entries are all identical.  Were `results` still
`None`, the attribute access would raise (`None` has no `nunique`). -/
def Analyzer.jackpot {α : Type} [DecidableEq α] (a : Analyzer α) :
    Except PyError ℕ :=
  match a.game.results with
  | none => .error (.attributeError "NoneType object has no attribute nunique")
  | some res => .ok ((res.rows.filter (fun r => nuniqueRow r = 1)).length)

/-- Embedding of `Analyzer.combo_counts`: per row the sorted tuple of its entries, then
`value_counts` over those keys, as the `Count` column of a frame. -/
def Analyzer.combo_counts {α : Type} [DecidableEq α] [LinearOrder α]
    (a : Analyzer α) : Except PyError (List (List α × ℕ)) :=
  match a.game.results with
  | none => .error (.attributeError "NoneType object has no attribute apply")
  | some res => .ok (value_counts (res.rows.map (fun r => r.insertionSort (· ≤ ·))))

/-- Embedding of `Analyzer.permute_counts`: per row the tuple of its entries in die
order, then `value_counts` over those keys. -/
def Analyzer.permute_counts {α : Type} [DecidableEq α] (a : Analyzer α) :
    Except PyError (List (List α × ℕ)) :=
  match a.game.results with
  | none => .error (.attributeError "NoneType object has no attribute apply")
  | some res => .ok (value_counts res.rows)

/-! Concrete objects used by witnesses and counterexamples.  `die2` is the
state `Die.__init__` was written to produce for a two-faced die (all
weights 1.0, the frame column mirroring them); `sigma0` is a trivial
random index stream. -/

def die2 : Die ℕ := ⟨[1, 2], [1, 1], [1, 1]⟩

def die6 : Die ℕ := ⟨[1, 2, 3, 4, 5, 6], [1, 1, 1, 1, 1, 1], [1, 1, 1, 1, 1, 1]⟩

def sigma0 : ℕ → ℕ := fun _ => 0

def sigma20 : ℕ → ℕ → ℕ := fun _ _ => 0

/-! Helper lemmas shared between the claim theorems. -/

@[simp]
lemma except_bind_ok {ε β γ : Type} (a : β) (f : β → Except ε γ) :
    (Except.ok a : Except ε β) >>= f = f a := rfl

@[simp]
lemma except_bind_error {ε β γ : Type} (e : ε) (f : β → Except ε γ) :
    (Except.error e : Except ε β) >>= f = Except.error e := rfl

@[simp]
lemma except_map_ok {ε β γ : Type} (f : β → γ) (a : β) :
    f <$> (Except.ok a : Except ε β) = Except.ok (f a) := rfl

@[simp]
lemma except_map_error {ε β γ : Type} (f : β → γ) (e : ε) :
    f <$> (Except.error e : Except ε β) = Except.error e := rfl

@[simp]
lemma except_pure_eq_ok {ε β : Type} (a : β) :
    (pure a : Except ε β) = Except.ok a := rfl

@[simp]
lemma except_map_fn_ok {ε β γ : Type} (f : β → γ) (a : β) :
    Except.map f (Except.ok a : Except ε β) = Except.ok (f a) := rfl

@[simp]
lemma except_map_fn_error {ε β γ : Type} (f : β → γ) (e : ε) :
    Except.map f (Except.error e : Except ε β) = Except.error e := rfl

/-- A die whose frame column matches its faces in length, has at least one
face, and has positive total frame weight draws successfully: one draw
returns a one-element list. -/
lemma roll_one_ok {α : Type} (d : Die α) (s : ℕ → ℕ)
    (hlen : d.dfWeights.length = d.faces.length) (hne : d.faces ≠ [])
    (hpos : 0 < d.dfWeights.sum) :
    ∃ o, d.roll 1 s = .ok [o] := by
  unfold Die.roll choices
  rcases hf : d.faces with _ | ⟨p, ps⟩
  · exact absurd hf hne
  · refine ⟨(p :: ps).getD (s 0 % (p :: ps).length) p, ?_⟩
    rw [hf] at hlen
    simp [hlen, not_le.mpr hpos, List.range_succ]

/-- A successful `rollRow` returns one outcome per die. -/
lemma rollRow_ok_length {α : Type} :
    ∀ (dice : List (Die α)) (pick : ℕ → ℕ) (row : List α),
      rollRow dice pick = .ok row → row.length = dice.length := by
  intro dice
  induction dice with
  | nil => intro pick row h; simp [rollRow] at h; simp [← h]
  | cons d ds ih =>
    intro pick row h
    simp only [rollRow] at h
    rcases h1 : d.roll 1 (fun _ => pick 0) with e | outs <;> rw [h1] at h
    · simp at h
    · rcases outs with _ | ⟨o, rest⟩
      · simp at h
      · simp only [except_bind_ok] at h
        rcases h2 : rollRow ds (fun i => pick (i + 1)) with e | tail <;>
          simp [h2] at h
        subst h
        simp [ih _ _ h2]

/-- `rollRow` succeeds when every die is drawable. -/
lemma rollRow_ok {α : Type} :
    ∀ (dice : List (Die α)) (pick : ℕ → ℕ),
      (∀ d ∈ dice, d.dfWeights.length = d.faces.length ∧ d.faces ≠ [] ∧
        0 < d.dfWeights.sum) →
      ∃ row, rollRow dice pick = .ok row := by
  intro dice
  induction dice with
  | nil => intro pick _; exact ⟨[], rfl⟩
  | cons d ds ih =>
    intro pick hall
    obtain ⟨hlen, hne, hpos⟩ := hall d (List.mem_cons_self d ds)
    obtain ⟨o, ho⟩ := roll_one_ok d (fun _ => pick 0) hlen hne hpos
    obtain ⟨tail, ht⟩ := ih (fun i => pick (i + 1))
      (fun x hx => hall x (List.mem_cons_of_mem d hx))
    exact ⟨o :: tail, by simp [rollRow, ho, ht]⟩

/-- A successful `playRows` returns one row per requested trial, each row
one outcome per die. -/
lemma playRows_ok_shape {α : Type} (dice : List (Die α)) :
    ∀ (n : ℕ) (σ : ℕ → ℕ → ℕ) (rows : List (List α)),
      playRows dice n σ = .ok rows →
      rows.length = n ∧ ∀ r ∈ rows, r.length = dice.length := by
  intro n
  induction n with
  | zero =>
    intro σ rows h
    simp [playRows] at h
    subst h
    simp
  | succ m ih =>
    intro σ rows h
    simp only [playRows] at h
    rcases h1 : rollRow dice (σ 0) with e | row <;> rw [h1] at h
    · simp at h
    · simp only [except_bind_ok] at h
      rcases h2 : playRows dice m (fun r => σ (r + 1)) with e | rest <;>
        simp [h2] at h
      subst h
      obtain ⟨hlenr, hall⟩ := ih _ _ h2
      refine ⟨by simp [hlenr], ?_⟩
      intro r hr
      rcases List.mem_cons.mp hr with hr | hr
      · exact hr ▸ rollRow_ok_length dice (σ 0) row h1
      · exact hall r hr

/-- `playRows` succeeds when every die of the game is drawable. -/
lemma playRows_ok {α : Type} (dice : List (Die α))
    (hall : ∀ d ∈ dice, d.dfWeights.length = d.faces.length ∧ d.faces ≠ [] ∧
      0 < d.dfWeights.sum) :
    ∀ (n : ℕ) (σ : ℕ → ℕ → ℕ), ∃ rows, playRows dice n σ = .ok rows := by
  intro n
  induction n with
  | zero => intro σ; exact ⟨[], rfl⟩
  | succ m ih =>
    intro σ
    obtain ⟨row, hrow⟩ := rollRow_ok dice (σ 0) hall
    obtain ⟨rest, hrest⟩ := ih (fun r => σ (r + 1))
    exact ⟨row :: rest, by simp [playRows, hrow, hrest]⟩

instance {ε β : Type} [DecidableEq ε] [DecidableEq β] : DecidableEq (Except ε β) := fun
  | .error a, .error b =>
    if h : a = b then .isTrue (congrArg Except.error h)
    else .isFalse (fun hh => h (by injection hh))
  | .error _, .ok _ => .isFalse (fun hh => Except.noConfusion hh)
  | .ok _, .error _ => .isFalse (fun hh => Except.noConfusion hh)
  | .ok a, .ok b =>
    if h : a = b then .isTrue (congrArg Except.ok h)
    else .isFalse (fun hh => h (by injection hh))

/-- Reading an entry of a `zipWith` at an in-range position. -/
lemma zipWith_getD {β γ : Type} (f : β → γ → γ) (b0 : β) (c0 : γ) :
    ∀ (as : List β) (bs : List γ) (i : ℕ), i < as.length → i < bs.length →
      (List.zipWith f as bs).getD i c0 = f (as.getD i b0) (bs.getD i c0)
  | [], _, i, h1, _ => absurd h1 (by simp)
  | _ :: _, [], i, _, h2 => absurd h2 (by simp)
  | _ :: _, _ :: _, 0, _, _ => rfl
  | _ :: as, _ :: bs, i + 1, h1, h2 =>
    zipWith_getD f b0 c0 as bs i (by simpa using h1) (by simpa using h2)

/-- Inversion of a successful `play`: the stored frame is built from the
collected rows, with index `1..rows.length`, positional column names, and
nothing of the prior `results` surviving. -/
lemma play_ok_inv {α : Type} (g : Game α) (rolls : ℤ) (σ : ℕ → ℕ → ℕ)
    (g2 : Game α) (h : g.play rolls σ = .ok g2) :
    ∃ rows, playRows g.dice rolls.toNat σ = .ok rows ∧
      g2 = Game.mk g.dice (some (ResultFrame.mk
        ((List.range rows.length).map (· + 1))
        ((List.range g.dice.length).map (fun i => "Die " ++ toString i))
        rows)) := by
  simp only [Game.play] at h
  rcases hp : playRows g.dice rolls.toNat σ with e | rows <;> rw [hp] at h
  · simp at h
  · simp at h
    exact ⟨rows, rfl, h.symm⟩

/-- Inversion of a successful `Analyzer.__init__`: the analyzer stores the
game it was given. -/
lemma analyzer_init_ok {α : Type} (g : Game α) (a : Analyzer α)
    (h : Analyzer.init g = .ok a) : a.game = g := by
  rcases hg : g.results with _ | fr <;> simp [Analyzer.init, hg] at h
  rw [← h]

/-- Every row with a single entry counts as a jackpot, so on a table of
single-entry rows the filter keeps everything. -/
lemma jackpot_filter_singletons {α : Type} [DecidableEq α]
    (rows : List (List α)) (h : ∀ r ∈ rows, r.length = 1) :
    (rows.filter (fun r => nuniqueRow r = 1)).length = rows.length := by
  rw [List.filter_eq_self.mpr]
  intro r hr
  rcases r with _ | ⟨x, rest⟩
  · simpa using h [] hr
  · rcases rest with _ | ⟨y, rest2⟩
    · simp [nuniqueRow]
    · simpa using h _ hr

/-- The counts listed by `value_counts` sum to the length of the series. -/
lemma sum_value_counts {β : Type} [DecidableEq β] (l : List β) :
    ((value_counts l).map Prod.snd).sum = l.length := by
  classical
  have h := Multiset.toFinset_sum_count_eq (s := (l : Multiset β))
  simp only [Finset.sum] at h
  rw [value_counts, List.map_map]
  simpa [Multiset.toFinset, Function.comp] using h

/-- Observation helper: the rows of the stored results table (empty when
`results` is still `None`). -/
def Game.resultRows {α : Type} (g : Game α) : List (List α) :=
  (g.results.map ResultFrame.rows).getD []

/-- Observation helper: the row index of the stored results table. -/
def Game.resultIndex {α : Type} (g : Game α) : List ℕ :=
  (g.results.map ResultFrame.index).getD []

/-- Observation helper: the column labels of the stored results table. -/
def Game.resultColumns {α : Type} (g : Game α) : List String :=
  (g.results.map ResultFrame.columns).getD []

/-- Observation helper: whether a results table has been stored. -/
def Game.hasResults {α : Type} (g : Game α) : Bool :=
  g.results.isSome

/-- C1: constructing a die from a nonempty distinct ndarray of labels — the
input of the test suite of the repository itself — does not succeed with all
weights 1.0 as claimed: the duplicate check calls the nonexistent
`ndarray.count` method and the constructor dies with `AttributeError` (the
non-sequence branch, in contrast, raises as the claim states). -/
theorem C1_init_crashes_on_valid_faces :
    Die.init (.ndarray [1, 2, 3, 4, 5, 6]) =
      .error (.attributeError "numpy.ndarray object has no attribute count") ∧
    Die.init (α := ℕ) .notArray =
      .error (.typeError "Faces must be a numpy array.") :=
  ⟨rfl, rfl⟩

/-- C2: on a game whose results table is populated, `show_results("narrow")`
does not return the unpivoted long-form table: it raises `AttributeError`,
because the narrow branch reads `self.wide_results`, an attribute nothing
ever assigns. -/
theorem C2_narrow_reads_missing_attribute {α : Type} (g : Game α)
    (fr : ResultFrame α) (hres : g.results = some fr) :
    g.show_results "narrow" =
      .error (.attributeError "Game object has no attribute wide_results") := by
  simp [Game.show_results, hres]

/-- Witness for C2 at a concrete populated game. -/
theorem C2_narrow_reads_missing_attribute_witness :
    (Game.mk [die2, die2] (some (ResultFrame.mk [1, 2] ["Die 0", "Die 1"]
        [[1, 2], [2, 2]]))).show_results "narrow" =
      .error (.attributeError "Game object has no attribute wide_results") :=
  C2_narrow_reads_missing_attribute _ _ rfl

/-- C3 counterexample: the claim says a negative weight fails with
`InvalidWeightError`, but `change_weight` accepts the negative numeric
weight -2.0 and stores it. -/
theorem C3_counterexample_negative_weight_accepted :
    die2.change_weight 1 (.float (-2)) = .ok (Die.mk [1, 2] [1, 1] [-2, 1]) :=
  rfl

/-- C3 (amended): `change_weight` fails with `UnknownLabelError`
(`IndexError`) when the label is not among the outcomes of the die, fails
with `InvalidWeightError` (`TypeError`) when the label is known but the
weight is not numeric — negative numeric weights are accepted — and on
success replaces exactly the frame weight stored for that label, leaving
`faces`, the `weights` array, and every other frame weight unchanged. -/
theorem C3_change_weight_contract {α : Type} [DecidableEq α] (d : Die α)
    (face : α) (w : PyVal) :
    (face ∉ d.faces →
      d.change_weight face w = .error (.indexError "Face not found in die.")) ∧
    (face ∈ d.faces → w.isNumeric = false →
      d.change_weight face w =
        .error (.typeError "Weight must be a numeric value.")) ∧
    (face ∈ d.faces → w.isNumeric = true →
      ((d.change_weight face w).map Die.faces = .ok d.faces) ∧
      ((d.change_weight face w).map Die.weights = .ok d.weights) ∧
      (∀ i, i < d.faces.length → i < d.dfWeights.length →
        (d.change_weight face w).map (fun d2 => d2.dfWeights.getD i 0) =
          .ok (if d.faces.getD i face = face then w.toRat
               else d.dfWeights.getD i 0))) := by
  refine ⟨fun hout => ?_, fun hm hn => ?_, fun hm hn => ?_⟩
  · simp [Die.change_weight, hout]
  · simp [Die.change_weight, hm, hn]
  · refine ⟨?_, ?_, ?_⟩
    · simp [Die.change_weight, hm, hn]
    · simp [Die.change_weight, hm, hn]
    · intro i h1 h2
      have hz := zipWith_getD (fun f wt => if f = face then w.toRat else wt)
        face 0 d.faces d.dfWeights i h1 h2
      simp [Die.change_weight, hm, hn]
      simpa using hz

/-- Witness for C3 on a concrete die: changing face 2 to 5 keeps the weight
of face 1 at 1.0, stores 5 for face 2, and leaves the `weights` array
untouched. -/
theorem C3_change_weight_contract_witness :
    (die2.change_weight 2 (.int 5)).map (fun d2 => d2.dfWeights.getD 0 0) =
      .ok 1 ∧
    (die2.change_weight 2 (.int 5)).map (fun d2 => d2.dfWeights.getD 1 0) =
      .ok 5 ∧
    (die2.change_weight 2 (.int 5)).map Die.weights = .ok [1, 1] := by
  have h := (C3_change_weight_contract die2 2 (.int 5)).2.2 (by decide) rfl
  refine ⟨?_, ?_, h.2.1⟩
  · have h0 := h.2.2 0 (by decide) (by decide)
    rw [h0]
    norm_num [die2]
  · have h1 := h.2.2 1 (by decide) (by decide)
    rw [h1]
    norm_num [die2, PyVal.toRat]

/-- C8 counterexample: the claim says a count below 1 fails with
`InvalidInputError`, but `roll` passes the count straight to
`random.choices`, which returns the empty draw list for it. -/
theorem C8_counterexample_roll_negative_count :
    die2.roll (-3) sigma0 = .ok [] := by
  norm_num [die2, Die.roll, choices]

/-- C8 (amended): on a die whose frame column matches its faces and is
drawable (nonempty faces, positive total weight), `roll(count)` with
`count < 1` does not fail: it returns the empty list of outcomes. -/
theorem C8_roll_low_count_returns_empty {α : Type} (d : Die α) (k : ℤ)
    (σ : ℕ → ℕ) (hlen : d.dfWeights.length = d.faces.length)
    (hne : d.faces ≠ []) (hpos : 0 < d.dfWeights.sum) (hk : k < 1) :
    d.roll k σ = .ok [] := by
  unfold Die.roll choices
  rcases hf : d.faces with _ | ⟨p, ps⟩
  · exact absurd hf hne
  · rw [hf] at hlen
    have hz : k.toNat = 0 := Int.toNat_of_nonpos (by omega)
    simp [hlen, not_le.mpr hpos, hz]

/-- Witness for C8 on a concrete drawable die with count 0. -/
theorem C8_roll_low_count_returns_empty_witness :
    die2.roll 0 sigma0 = .ok [] :=
  C8_roll_low_count_returns_empty die2 0 sigma0 rfl (by decide)
    (by norm_num [die2]) (by decide)

/-- C4: on a game whose dice are all drawable, `play(trials)` with
`trials >= 1` succeeds and stores a table of exactly `trials` rows, one
column per die, with row index `1..trials` and column labels naming each
die position, and the stored table does not depend on any previously stored
one (the prior table is replaced, not appended to). -/
theorem C4_play_builds_table {α : Type} (g : Game α) (trials : ℤ)
    (σ : ℕ → ℕ → ℕ)
    (hdice : ∀ d ∈ g.dice, d.dfWeights.length = d.faces.length ∧
      d.faces ≠ [] ∧ 0 < d.dfWeights.sum)
    (ht : 1 ≤ trials) :
    ((g.play trials σ).map Game.hasResults = .ok true) ∧
    ((g.play trials σ).map (fun g2 => g2.resultRows.length) =
      .ok trials.toNat) ∧
    ((g.play trials σ).map
      (fun g2 => g2.resultRows.all (fun r => r.length = g.dice.length)) =
      .ok true) ∧
    ((g.play trials σ).map Game.resultIndex =
      .ok ((List.range trials.toNat).map (· + 1))) ∧
    ((g.play trials σ).map Game.resultColumns =
      .ok ((List.range g.dice.length).map (fun i => "Die " ++ toString i))) ∧
    (∀ r0 : Option (ResultFrame α),
      (Game.mk g.dice r0).play trials σ = g.play trials σ) := by
  obtain ⟨rows, hrows⟩ := playRows_ok g.dice hdice trials.toNat σ
  obtain ⟨hlen, hall⟩ := playRows_ok_shape g.dice trials.toNat σ rows hrows
  refine ⟨?_, ?_, ?_, ?_, ?_, ?_⟩
  · simp [Game.play, hrows, Game.hasResults]
  · simp [Game.play, hrows, Game.resultRows, hlen]
  · simp only [Game.play, hrows, except_bind_ok, except_pure_eq_ok,
      except_map_fn_ok, Game.resultRows, Option.map_some, Option.getD_some]
    rw [List.all_eq_true.mpr]
    intro r hr
    simpa using hall r hr
  · simp [Game.play, hrows, Game.resultIndex, hlen]
  · simp [Game.play, hrows, Game.resultColumns]
  · intro r0
    simp [Game.play, hrows]

/-- Witness for C4 at a concrete one-die game played for two trials,
including replacement of a previously stored table. -/
theorem C4_play_builds_table_witness :
    ((Game.mk [die2] none).play 2 sigma20).map Game.hasResults = .ok true ∧
    ((Game.mk [die2] none).play 2 sigma20).map
      (fun g2 => g2.resultRows.length) = .ok 2 ∧
    ((Game.mk [die2] none).play 2 sigma20).map Game.resultIndex =
      .ok [1, 2] ∧
    ((Game.mk [die2] none).play 2 sigma20).map Game.resultColumns =
      .ok ["Die 0"] ∧
    (Game.mk [die2] (some (ResultFrame.mk [1] ["Die 0"] [[9]]))).play 2
        sigma20 =
      (Game.mk [die2] none).play 2 sigma20 := by
  have hd : ∀ d ∈ (Game.mk [die2] none).dice,
      d.dfWeights.length = d.faces.length ∧ d.faces ≠ [] ∧
      0 < d.dfWeights.sum := by
    intro d hd
    simp only [List.mem_singleton] at hd
    subst hd
    exact ⟨rfl, by decide, by norm_num [die2]⟩
  have h := C4_play_builds_table (Game.mk [die2] none) 2 sigma20 hd
    (by norm_num)
  refine ⟨h.1, h.2.1, ?_, ?_, h.2.2.2.2.2 (some (ResultFrame.mk [1]
    ["Die 0"] [[9]]))⟩
  · rw [h.2.2.2.1]
    rfl
  · rw [h.2.2.2.2.1]
    rfl

/-- C5: on a game on which `play` has never succeeded (`results` is still
`None`), `show_results` fails with `NoResultsError` (the `ValueError` of the
source) for every shape argument, and constructing an `Analyzer` around it
fails the same way; neither returns a table. -/
theorem C5_no_results_errors {α : Type} (g : Game α) (hres : g.results = none) :
    (∀ form : String, g.show_results form =
      .error (.valueError "No results available. Please play the game first.")) ∧
    Analyzer.init g =
      .error (.valueError "No game results available. Please play the game first.") := by
  constructor
  · intro form
    simp [Game.show_results, hres]
  · simp [Analyzer.init, hres]

/-- Witness for C5 at a concrete unplayed game, with the wide, narrow and
an invalid shape argument. -/
theorem C5_no_results_errors_witness :
    (Game.mk [die2] none).show_results "wide" =
      .error (.valueError "No results available. Please play the game first.") ∧
    (Game.mk [die2] none).show_results "narrow" =
      .error (.valueError "No results available. Please play the game first.") ∧
    (Game.mk [die2] none).show_results "junk" =
      .error (.valueError "No results available. Please play the game first.") ∧
    Analyzer.init (Game.mk [die2] none) =
      .error (.valueError "No game results available. Please play the game first.") :=
  ⟨(C5_no_results_errors _ rfl).1 "wide", (C5_no_results_errors _ rfl).1 "narrow",
   (C5_no_results_errors _ rfl).1 "junk", (C5_no_results_errors _ rfl).2⟩

/-- C6: when a game has exactly one die, every trial of a successful play is
a jackpot: `jackpot` on an analyzer built over the played game returns the
trial count. -/
theorem C6_single_die_every_trial_jackpot {α : Type} [DecidableEq α]
    (g : Game α) (trials : ℤ) (σ : ℕ → ℕ → ℕ) (g2 : Game α) (a : Analyzer α)
    (hone : g.dice.length = 1)
    (hplay : g.play trials σ = .ok g2)
    (hinit : Analyzer.init g2 = .ok a) :
    a.jackpot = .ok trials.toNat := by
  obtain ⟨rows, hrows, hg2⟩ := play_ok_inv g trials σ g2 hplay
  obtain ⟨hlen, hall⟩ := playRows_ok_shape g.dice trials.toNat σ rows hrows
  have hga : a.game = g2 := analyzer_init_ok g2 a hinit
  subst hg2
  simp only [Analyzer.jackpot, hga]
  rw [jackpot_filter_singletons rows (fun r hr => hone ▸ hall r hr), hlen]

/-- Witness for C6: a single-die game played for three trials has three
jackpots. -/
theorem C6_single_die_every_trial_jackpot_witness :
    Analyzer.jackpot (Analyzer.mk (Game.mk [die2] (some (ResultFrame.mk
      [1, 2, 3] ["Die 0"] [[1], [1], [1]])))) = .ok 3 := by
  have hplay : (Game.mk [die2] none).play 3 sigma20 =
      .ok (Game.mk [die2] (some (ResultFrame.mk [1, 2, 3] ["Die 0"]
        [[1], [1], [1]]))) := by
    norm_num [Game.play, playRows, rollRow, die2, Die.roll, choices, sigma20,
      List.range_succ]
    rfl
  exact C6_single_die_every_trial_jackpot (Game.mk [die2] none) 3 sigma20 _ _
    rfl hplay rfl

/-- C7: over any populated results table, the combination counts and the
permutation counts each sum to the number of trial rows. -/
theorem C7_counts_sum_to_trials {α : Type} [DecidableEq α] [LinearOrder α]
    (a : Analyzer α) (fr : ResultFrame α) (hres : a.game.results = some fr) :
    (a.combo_counts.map (fun tbl => (tbl.map Prod.snd).sum) =
      .ok fr.rows.length) ∧
    (a.permute_counts.map (fun tbl => (tbl.map Prod.snd).sum) =
      .ok fr.rows.length) := by
  constructor
  · simp [Analyzer.combo_counts, hres, sum_value_counts]
  · simp [Analyzer.permute_counts, hres, sum_value_counts]

/-- Witness for C7 on a concrete two-row table. -/
theorem C7_counts_sum_to_trials_witness :
    ((Analyzer.mk (Game.mk [die2, die2] (some (ResultFrame.mk [1, 2]
        ["Die 0", "Die 1"] [[2, 1], [1, 2]])))).combo_counts.map
      (fun tbl => (tbl.map Prod.snd).sum) = .ok 2) ∧
    ((Analyzer.mk (Game.mk [die2, die2] (some (ResultFrame.mk [1, 2]
        ["Die 0", "Die 1"] [[2, 1], [1, 2]])))).permute_counts.map
      (fun tbl => (tbl.map Prod.snd).sum) = .ok 2) := by
  have h := C7_counts_sum_to_trials (Analyzer.mk (Game.mk [die2, die2]
    (some (ResultFrame.mk [1, 2] ["Die 0", "Die 1"] [[2, 1], [1, 2]]))))
    (ResultFrame.mk [1, 2] ["Die 0", "Die 1"] [[2, 1], [1, 2]]) rfl
  exact ⟨h.1, h.2⟩

/-- C9 counterexample: the claim says `play(trials)` with `trials < 1` fails
with `InvalidInputError`, but `play(0)` succeeds, storing an empty table
(and discarding the previously stored one). -/
theorem C9_counterexample_play_zero_succeeds :
    (Game.mk [die2] (some (ResultFrame.mk [1] ["Die 0"] [[2]]))).play 0
      sigma20 = .ok (Game.mk [die2] (some (ResultFrame.mk [] ["Die 0"] []))) :=
  rfl

/-- C9 (amended): for `trials < 1` the `range(trials)` loop body never runs,
so `play` does not fail: it succeeds and replaces the results with a table
of zero rows (still carrying the positional column labels). -/
theorem C9_play_low_trials_empty_table {α : Type} (g : Game α) (trials : ℤ)
    (σ : ℕ → ℕ → ℕ) (ht : trials < 1) :
    g.play trials σ = .ok (Game.mk g.dice (some (ResultFrame.mk []
      ((List.range g.dice.length).map (fun i => "Die " ++ toString i)) []))) := by
  have hz : trials.toNat = 0 := Int.toNat_of_nonpos (by omega)
  simp [Game.play, hz, playRows]

/-- Witness for C9 at a concrete game with zero trials. -/
theorem C9_play_low_trials_empty_table_witness :
    (Game.mk [die2] none).play 0 sigma20 =
      .ok (Game.mk [die2] (some (ResultFrame.mk [] ["Die 0"] []))) :=
  (C9_play_low_trials_empty_table (Game.mk [die2] none) 0 sigma20
    (by decide)).trans (by rfl)

/-- C10: a successful `change_weight` leaves the `weights` array at its
construction-time all-ones value and records the new weight only in the
frame column, while `roll` is a function of the faces and the frame column
alone — so after a successful weight change the public `weights` attribute
no longer describes the distribution `roll` draws from. -/
theorem C10_weights_attr_stale {α : Type} [DecidableEq α] (d : Die α)
    (face : α) (w : PyVal)
    (hw : d.weights = List.replicate d.faces.length 1)
    (hlen : d.dfWeights.length = d.faces.length)
    (hm : face ∈ d.faces) (hn : w.isNumeric = true) :
    ((d.change_weight face w).map Die.weights =
      .ok (List.replicate d.faces.length 1)) ∧
    ((d.change_weight face w).map
      (fun d2 => d2.dfWeights.getD (d.faces.indexOf face) 0) = .ok w.toRat) ∧
    (∀ d2 d3 : Die α, d2.faces = d3.faces → d2.dfWeights = d3.dfWeights →
      ∀ (k : ℤ) (σ : ℕ → ℕ), d2.roll k σ = d3.roll k σ) := by
  refine ⟨?_, ?_, ?_⟩
  · simp [Die.change_weight, hm, hn, hw]
  · have hj : d.faces.indexOf face < d.faces.length :=
      List.indexOf_lt_length.mpr hm
    have hz := zipWith_getD (fun f wt => if f = face then w.toRat else wt)
      face 0 d.faces d.dfWeights (d.faces.indexOf face) hj (hlen ▸ hj)
    have hface : d.faces.getD (d.faces.indexOf face) face = face := by
      rw [List.getD_eq_getElem _ _ hj]
      exact List.getElem_indexOf hj
    rw [hface] at hz
    simp only [if_pos rfl] at hz
    simp [Die.change_weight, hm, hn]
    simpa using hz
  · intro d2 d3 hfaces hdf k σ
    unfold Die.roll
    rw [hfaces, hdf]

/-- Witness for C10: after raising the frame weight of face 1 to 3.0, the
`weights` array still reads all ones while the frame column holds 3. -/
theorem C10_weights_attr_stale_witness :
    ((die2.change_weight 1 (.float 3)).map Die.weights = .ok [1, 1]) ∧
    ((die2.change_weight 1 (.float 3)).map
      (fun d2 => d2.dfWeights.getD 0 0) = .ok 3) := by
  have h := C10_weights_attr_stale die2 1 (.float 3) rfl rfl (by decide) rfl
  exact ⟨h.1, h.2.1⟩

end MonteCarlo
